import Mathlib

set_option maxHeartbeats 1000000

/-!
Verification of the landmarkops delivery-note application: a shallow
embedding of the Azure-response extraction code
(`landmarkops/utils/azure_parser.py`) and of the delivery-note lifecycle
state machine
(`landmark_ops/doctype/landmark_delivery_note/landmark_delivery_note.py`),
with theorems settling the specified behaviour against the code.
-/

/-- JSON-like values, the shape of the data inside an Azure
Document Intelligence analysis result. `b` models Python booleans
(which behave as the integers 0/1 in comparisons). -/
inductive Json where
  | null
  | s (v : String)
  | i (v : Int)
  | b (v : Bool)
  | arr (elems : List Json)
  | obj (entries : List (String × Json))

/-- Python exceptions that the parsing code can hit on ill-shaped data
(all of them are caught by the outer handler of `parse_azure_response`
and re-raised as a wrapped error). -/
inductive PyErr where
  | attributeError
  | typeError
  | indexError
  | keyError
deriving DecidableEq

/-- Python truthiness of a JSON value: `None`, `""`, `0`, `False`, `[]`
and `{}` are falsy. -/
def Json.truthy : Json → Bool
  | .null => false
  | .s v => v ≠ ""
  | .i n => n ≠ 0
  | .b v => v
  | .arr elems => !elems.isEmpty
  | .obj entries => !entries.isEmpty

/-- Python `d.get(k, default)`: attribute error when the receiver is not
a dict (e.g. `"x".get(...)` raises `AttributeError`). -/
def jget (j : Json) (k : String) (d : Json) : Except PyErr Json :=
  match j with
  | .obj entries => .ok ((List.lookup k entries).getD d)
  | _ => .error .attributeError

/-- Python iteration `for x in j`: lists yield their elements, dicts
their keys, strings their characters; other values raise `TypeError`. -/
def Json.iter : Json → Except PyErr (List Json)
  | .arr elems => .ok elems
  | .obj entries => .ok (entries.map (fun e => .s e.1))
  | .s v => .ok (v.data.map (fun c => .s (String.mk [c])))
  | _ => .error .typeError

/-- Python `d.items()`: attribute error on a non-dict receiver. -/
def jitems : Json → Except PyErr (List (String × Json))
  | .obj entries => .ok entries
  | _ => .error .attributeError

/-- Python dict assignment `d[k] = v`: replace in place when the key is
present, else append (dict keys stay unique, insertion order kept). -/
def dictSet (d : List (String × Json)) (k : String) (v : Json) :
    List (String × Json) :=
  if (List.lookup k d).isSome then
    d.map (fun e => if e.1 = k then (k, v) else e)
  else d ++ [(k, v)]

/-- A JSON value used in an integer comparison: Python booleans count as
0/1; comparing an int against a non-number raises `TypeError`. -/
def asInt : Json → Except PyErr Int
  | .i n => .ok n
  | .b v => .ok (if v then 1 else 0)
  | _ => .error .typeError

/-- Python `str.lower()` on the strings this model handles (ASCII). -/
def pyLower (s : String) : String := String.mk (s.data.map Char.toLower)

/-- Drop leading whitespace, helper of `pyStrip`. -/
def dropLeadWs : List Char → List Char
  | [] => []
  | c :: cs => if c.isWhitespace then dropLeadWs cs else c :: cs

/-- Python `str.strip()`: drop whitespace at both ends. -/
def pyStrip (s : String) : String :=
  String.mk ((dropLeadWs ((dropLeadWs s.data).reverse)).reverse)

/-- Does `sub` occur at the head of the second list? -/
def leadMatch : List Char → List Char → Bool
  | [], _ => true
  | _ :: _, [] => false
  | c :: cs, d :: ds => c == d && leadMatch cs ds

/-- Occurrence search at every suffix, helper of `strContains`. -/
def subSearch (sub : List Char) : List Char → Bool
  | [] => leadMatch sub []
  | d :: ds => leadMatch sub (d :: ds) || subSearch sub ds

/-- Python substring test `sub in s`. -/
def strContains (s sub : String) : Bool := subSearch sub.data s.data

/-- Python `str.replace(",", "")`: drop every comma. -/
def removeCommas (s : String) : String :=
  String.mk (s.data.filter (fun c => c != ','))

/-- Python `.strip()` on a JSON value: only strings have `strip`;
anything else raises `AttributeError`. -/
def asStrStrip : Json → Except PyErr String
  | .s v => .ok (pyStrip v)
  | _ => .error .attributeError

/-- Python `.lower().strip()` on a JSON value. -/
def asStrLowerStrip : Json → Except PyErr String
  | .s v => .ok (pyStrip (pyLower v))
  | _ => .error .attributeError

/-- Python list indexing `xs[i]` of a list of length `n`: indices in
`[0, n)` address directly, indices in `[-n, 0)` wrap around to
`n + i`, everything else raises `IndexError`. -/
def pyResolve (i : Int) (n : Nat) : Except PyErr Nat :=
  if 0 ≤ i ∧ i < n then .ok i.toNat
  else if -(n : Int) ≤ i ∧ i < 0 then .ok ((n : Int) + i).toNat
  else .error .indexError

/-- Value of a digit string, most significant digit first. -/
def digitsVal (ds : List Char) : Nat :=
  ds.foldl (fun a c => 10 * a + (c.toNat - 48)) 0

/-- Optional leading sign of a numeric literal. -/
def parseSign : List Char → Int × List Char
  | '+' :: r => (1, r)
  | '-' :: r => (-1, r)
  | r => (1, r)

/-- Unsigned decimal mantissa: digits with at most one dot, at least one
digit overall (`"5."`, `".5"`, `"5.25"`, `"5"`). -/
def parseUnsignedMantissa (cs : List Char) : Option Rat :=
  match cs.splitOn '.' with
  | [w] =>
    if w ≠ [] ∧ w.all Char.isDigit then some (digitsVal w) else none
  | [w, f] =>
    if (w ++ f) ≠ [] ∧ (w ++ f).all Char.isDigit then
      some ((digitsVal w : Rat) + (digitsVal f : Rat) / (10 : Rat) ^ f.length)
    else none
  | _ => none

/-- Signed integer exponent of a numeric literal. -/
def parseExp (cs : List Char) : Option Int :=
  let sg := (parseSign cs).1
  let ds := (parseSign cs).2
  if ds ≠ [] ∧ ds.all Char.isDigit then some (sg * (digitsVal ds : Int))
  else none

/-- Model of Python `float(s)` over the rationals, restricted to finite
decimal literals (optional sign, digits, optional fraction, optional
exponent, surrounding whitespace). Non-finite spellings such as
`"inf"`/`"nan"` and digit-group underscores are outside the modelled
domain; no input in this development uses them. `none` models
`ValueError`. -/
def pyFloat? (str : String) : Option Rat :=
  let cs := (pyLower (pyStrip str)).data
  match cs.splitOn 'e' with
  | [m] => do
    let v ← parseUnsignedMantissa (parseSign m).2
    pure (((parseSign m).1 : Rat) * v)
  | [m, e] => do
    let v ← parseUnsignedMantissa (parseSign m).2
    let ex ← parseExp e
    pure (((parseSign m).1 : Rat) * v * (10 : Rat) ^ ex)
  | _ => none

/-- Python `int(q)` on a float value: truncation toward zero. -/
def truncRat (q : Rat) : Int :=
  if 0 ≤ q then q.floor else -((-q).floor)

/-- `safe_float` from `azure_parser.py`: `None`/`""` give the default
0.0, otherwise strip thousands separators and parse as a float, any
parse failure giving the default. -/
def safe_float (value : Option String) : Rat :=
  match value with
  | none => 0
  | some str =>
    if str = "" then 0
    else
      match pyFloat? (removeCommas str) with
      | some q => q
      | none => 0

/-- `safe_int` from `azure_parser.py`: like `safe_float`, then truncate
toward zero. -/
def safe_int (value : Option String) : Int :=
  match value with
  | none => 0
  | some str =>
    if str = "" then 0
    else
      match pyFloat? (removeCommas str) with
      | some q => truncRat q
      | none => 0

/-- The header fields of a Landmark Delivery Note that
`parse_azure_response` can populate. -/
inductive HeaderField where
  | delivery_note_no
  | delivery_date
  | sales_order_no
  | sales_responsible
  | delivery_mode
  | customer_code
  | customer_name
  | customer_phone
  | customer_reference
  | delivery_address
deriving DecidableEq

/-- The header portion of the document record: each field starts unset
(Python `None`) and `doc.set` can store any value the parser found. -/
structure Header where
  delivery_note_no : Json := .null
  delivery_date : Json := .null
  sales_order_no : Json := .null
  sales_responsible : Json := .null
  delivery_mode : Json := .null
  customer_code : Json := .null
  customer_name : Json := .null
  customer_phone : Json := .null
  customer_reference : Json := .null
  delivery_address : Json := .null

/-- Frappe `doc.get(field)` on the header fields. -/
def Header.get (h : Header) : HeaderField → Json
  | .delivery_note_no => h.delivery_note_no
  | .delivery_date => h.delivery_date
  | .sales_order_no => h.sales_order_no
  | .sales_responsible => h.sales_responsible
  | .delivery_mode => h.delivery_mode
  | .customer_code => h.customer_code
  | .customer_name => h.customer_name
  | .customer_phone => h.customer_phone
  | .customer_reference => h.customer_reference
  | .delivery_address => h.delivery_address

/-- Frappe `doc.set(field, value)` on the header fields. -/
def Header.set (h : Header) : HeaderField → Json → Header
  | .delivery_note_no, v => { h with delivery_note_no := v }
  | .delivery_date, v => { h with delivery_date := v }
  | .sales_order_no, v => { h with sales_order_no := v }
  | .sales_responsible, v => { h with sales_responsible := v }
  | .delivery_mode, v => { h with delivery_mode := v }
  | .customer_code, v => { h with customer_code := v }
  | .customer_name, v => { h with customer_name := v }
  | .customer_phone, v => { h with customer_phone := v }
  | .customer_reference, v => { h with customer_reference := v }
  | .delivery_address, v => { h with delivery_address := v }

/-- A delivery-note line item. Fields of type `Option String` model
Python values that can be either `None` or a string. -/
structure Item where
  sr_no : Int
  item_id : Option String
  flexi_code : Option String
  item_name : Option String
  item_name_short : String
  unit : Option String
  qty : Rat
  cartons : Rat
deriving DecidableEq

/-- The Landmark Delivery Note record. Timestamps are abstract instants
(`Option Nat`), `none` meaning unset. -/
structure Doc where
  status : String
  payment_type : String
  items : List Item
  driver_confirmed_at : Option Nat
  delivered_at : Option Nat
  header : Header

/-- The `field_mapping` dict of `parse_azure_response`, in source
order: lowercase Azure label → document field. -/
def field_mapping : List (String × HeaderField) :=
  [("delivery note number", .delivery_note_no),
   ("delivery note no", .delivery_note_no),
   ("dn no", .delivery_note_no),
   ("date", .delivery_date),
   ("sales order number", .sales_order_no),
   ("sales order no", .sales_order_no),
   ("so no", .sales_order_no),
   ("sales responsible", .sales_responsible),
   ("delivery mode", .delivery_mode),
   ("customer code", .customer_code),
   ("customer name", .customer_name),
   ("phone", .customer_phone),
   ("customer reference", .customer_reference),
   ("delivery address", .delivery_address),
   ("address", .delivery_address)]

/-- One step of the header-field update loop of `parse_azure_response`:
look the label up (exactly) in the extracted pairs and set the field
only when the found value is truthy and the field is not already
truthy. -/
def header_step (pairs : List (String × Json)) (h : Header)
    (kf : String × HeaderField) : Header :=
  match List.lookup (pyLower kf.1) pairs with
  | some v => if v.truthy ∧ ¬ (h.get kf.2).truthy then h.set kf.2 v else h
  | none => h

/-- The header-field update loop of `parse_azure_response` (lines
220–223): iterate the field mapping in order. -/
def update_header_fields (h : Header) (pairs : List (String × Json)) :
    Header :=
  field_mapping.foldl (header_step pairs) h

/-- One `keyValuePairs` entry of `extract_key_value_pairs`: both key and
value must be truthy; their `content` strings are normalized and stored
in the pairs dict when non-empty. A truthy non-dict key or value, or a
non-string content, raises. -/
def kv_step (pairs : List (String × Json)) (kv : Json) :
    Except PyErr (List (String × Json)) := do
  let k ← jget kv "key" .null
  let v ← jget kv "value" .null
  if k.truthy ∧ v.truthy then
    let kc ← jget k "content" (.s "")
    let key_text ← asStrLowerStrip kc
    let vc ← jget v "content" (.s "")
    let value_text ← asStrStrip vc
    if key_text ≠ "" ∧ value_text ≠ "" then
      pure (dictSet pairs key_text (.s value_text))
    else
      pure pairs
  else
    pure pairs

/-- One `documents` entry of `extract_key_value_pairs`: every field that
is a dict holding `content` (else `valueString`) is stored under the
lowercased field name, raw value kept. -/
def doc_fields_step (pairs : List (String × Json)) (document : Json) :
    Except PyErr (List (String × Json)) := do
  let fields ← jget document "fields" (.obj [])
  let fieldList ← jitems fields
  pure (fieldList.foldl (fun pairs fd =>
    match fd.2 with
    | .obj entries =>
      match List.lookup "content" entries with
      | some cv => dictSet pairs (pyLower fd.1) cv
      | none =>
        match List.lookup "valueString" entries with
        | some sv => dictSet pairs (pyLower fd.1) sv
        | none => pairs
    | _ => pairs) pairs)

/-- `extract_key_value_pairs` from `azure_parser.py`: normalize both the
`keyValuePairs` and the `documents`/`fields` representations into one
label→value dict. -/
def extract_key_value_pairs (analyze_result : Json) :
    Except PyErr (List (String × Json)) := do
  let kvs ← jget analyze_result "keyValuePairs" (.arr [])
  let kvList ← kvs.iter
  let pairs ← kvList.foldlM kv_step []
  let docs ← jget analyze_result "documents" (.arr [])
  let docList ← docs.iter
  docList.foldlM doc_fields_step pairs

/-- Truthiness of a grid cell (`None` or a string). -/
def cellTruthy : Option String → Bool
  | none => false
  | some v => v ≠ ""

/-- One cell of the grid-building loop of `parse_items_table` (lines
283–289): read `rowIndex`/`columnIndex`/`content`, keep the cell only
when both indices compare below the declared counts, and store the
stripped content by Python list indexing (so negative indices wrap
around, and indices below `-count` raise `IndexError`). -/
def place_cell (row_count column_count : Int)
    (grid : List (List (Option String))) (cell : Json) :
    Except PyErr (List (List (Option String))) := do
  let row_idx ← asInt (← jget cell "rowIndex" (.i 0))
  let col_idx ← asInt (← jget cell "columnIndex" (.i 0))
  let content ← asStrStrip (← jget cell "content" (.s ""))
  if row_idx < row_count ∧ col_idx < column_count then do
    let p ← pyResolve row_idx grid.length
    let row := grid.getD p []
    let q ← pyResolve col_idx row.length
    pure (grid.set p (row.set q (some content)))
  else
    pure grid

/-- The dense default-empty grid plus the cell-placement loop of
`parse_items_table`. -/
def build_grid (row_count column_count : Int) (cells : List Json) :
    Except PyErr (List (List (Option String))) :=
  cells.foldlM (place_cell row_count column_count)
    (List.replicate row_count.toNat
      (List.replicate column_count.toNat none))

/-- Normalization of a header cell: `str(h).lower().strip() if h else ""`. -/
def header_text : Option String → String
  | none => ""
  | some v => if v = "" then "" else pyStrip (pyLower v)

/-- The classified column indices (`col_map`) of `parse_items_table`. -/
structure ColMap where
  sr_no : Option Nat := none
  item_id : Option Nat := none
  flexi_code : Option Nat := none
  item_name : Option Nat := none
  unit : Option Nat := none
  qty : Option Nat := none
  cartons : Option Nat := none
deriving DecidableEq

/-- The header-classification loop of `parse_items_table` (lines
295–310): each header cell is tested against the if/elif chain in
order; a later header matching an already-assigned key overwrites the
stored index, exactly as the Python dict assignment does. -/
def classify_headers (headers : List String) : ColMap :=
  headers.enum.foldl (fun cm ih =>
    let idx := ih.1
    let header := ih.2
    if strContains header "sr" ||
        (strContains header "no" && header.length < 10) then
      { cm with sr_no := some idx }
    else if strContains header "item id" || strContains header "itemid" then
      { cm with item_id := some idx }
    else if strContains header "flexi" then
      { cm with flexi_code := some idx }
    else if strContains header "item name" ||
        strContains header "description" then
      { cm with item_name := some idx }
    else if strContains header "unit" && !strContains header "qty" then
      { cm with unit := some idx }
    else if strContains header "qty" || strContains header "quantity" then
      { cm with qty := some idx }
    else if strContains header "carton" then
      { cm with cartons := some idx }
    else cm) {}

/-- The item construction of `parse_items_table` (lines 320–328): each
field reads its classified column when one exists; when none was
classified, `sr_no` falls back to the row index and every other field
is the literal Python `""`, `0.0` default written in the `else` branch
(the `col_map.get(..., n)` positional defaults are guarded by the
`in col_map` test and are never used). -/
def build_item (row : List (Option String)) (row_idx : Nat) (cm : ColMap) :
    Item :=
  { sr_no :=
      match cm.sr_no with
      | some idx => safe_int (row.getD idx none)
      | none => (row_idx : Int)
    item_id :=
      match cm.item_id with
      | some idx => row.getD idx none
      | none => some ""
    flexi_code :=
      match cm.flexi_code with
      | some idx => row.getD idx none
      | none => some ""
    item_name :=
      match cm.item_name with
      | some idx => row.getD idx none
      | none => some ""
    item_name_short := ""
    unit :=
      match cm.unit with
      | some idx => row.getD idx none
      | none => some ""
    qty :=
      match cm.qty with
      | some idx => safe_float (row.getD idx none)
      | none => 0
    cartons :=
      match cm.cartons with
      | some idx => safe_float (row.getD idx none)
      | none => 0 }

/-- The data-row loop of `parse_items_table` (lines 313–332): rows 1
onward, skipping rows in which every cell is falsy, and appending the
built item only when its `item_name` or `item_id` is truthy. -/
def parse_rows (grid : List (List (Option String))) (row_count : Int)
    (cm : ColMap) : List Item :=
  ((List.range row_count.toNat).drop 1).foldl (fun acc row_idx =>
    let row := grid.getD row_idx []
    if row.any cellTruthy then
      let item := build_item row row_idx cm
      if cellTruthy item.item_name || cellTruthy item.item_id then
        acc ++ [item]
      else acc
    else acc) []

/-- `parse_items_table` from `azure_parser.py`: clear the items, read
the declared sizes (any non-integer raising as the Python code would),
bail out on a zero size, build the grid, classify the first row's
headers and parse the data rows. -/
def parse_items_table (doc : Doc) (table : Json) : Except PyErr Doc := do
  let doc := { doc with items := [] }
  let row_count ← asInt (← jget table "rowCount" (.i 0))
  let column_count ← asInt (← jget table "columnCount" (.i 0))
  let cells ← jget table "cells" (.arr [])
  if row_count = 0 ∨ column_count = 0 then
    pure doc
  else do
    let cellList ← cells.iter
    let grid ← build_grid row_count column_count cellList
    let hp ← pyResolve 0 grid.length
    let headers := (grid.getD hp []).map header_text
    let cm := classify_headers headers
    pure { doc with items := parse_rows grid row_count cm }

/-- Python `xs[0]` on an arbitrary value (used for `tables[0]`): lists
and strings index, dicts raise `KeyError` on a missing key, other
values raise `TypeError`. -/
def pyIndexZero : Json → Except PyErr Json
  | .arr [] => .error .indexError
  | .arr (x :: _) => .ok x
  | .s v =>
    match v.data with
    | [] => .error .indexError
    | c :: _ => .ok (.s (String.mk [c]))
  | .obj _ => .error .keyError
  | _ => .error .typeError

/-- The body of `parse_azure_response` (lines 194–228): extract the
label/value pairs, update the header fields, and parse the first table
when the `tables` list is truthy. Any `PyErr` escapes to the caller's
`except` handler. -/
def parse_azure_response_body (doc : Doc)
    (azure_result : List (String × Json)) : Except PyErr Doc := do
  let analyze_result := (List.lookup "analyzeResult" azure_result).getD (.obj [])
  let pairs ← extract_key_value_pairs analyze_result
  let doc := { doc with header := update_header_fields doc.header pairs }
  let tables ← jget analyze_result "tables" (.arr [])
  if tables.truthy then do
    let t ← pyIndexZero tables
    parse_items_table doc t
  else
    pure doc

/-- Structured errors of the delivery-note core. `parseError` models the
`frappe.throw("Failed to parse Azure response: ...")` re-raise of
`parse_azure_response`, carrying the Python exception it wrapped. -/
inductive Err where
  | invalidTransition (fromStatus toStatus : String)
  | noItemsToConfirm
  | invalidPaymentType (paymentType : String)
  | parseError (cause : PyErr)
deriving DecidableEq

/-- `parse_azure_response` from `azure_parser.py`: run the body; any
exception is caught, logged, and re-raised as a wrapped
"Failed to parse Azure response" error, so the parse does not complete. -/
def parse_azure_response (doc : Doc)
    (azure_result : List (String × Json)) : Except Err Doc :=
  match parse_azure_response_body doc azure_result with
  | .ok doc => .ok doc
  | .error e => .error (.parseError e)

/-- The `valid_status_flow` dict of `landmark_delivery_note.py` (lines
23–30), read with `dict.get(status, [])` so an unknown status allows
nothing. -/
def valid_status_flow (status : String) : List String :=
  if status = "Image Received" then ["Parsed", "Awaiting Driver Confirmation"]
  else if status = "Parsed" then ["Awaiting Driver Confirmation"]
  else if status = "Awaiting Driver Confirmation" then ["Confirmed by Driver"]
  else if status = "Confirmed by Driver" then
    ["Delivered - Cash Received", "Delivered - Credit"]
  else if status = "Delivered - Cash Received" then []
  else if status = "Delivered - Credit" then []
  else []

/-- `validate_status_flow` (lines 21–43): `old` is the previously
persisted version of the record (`get_doc_before_save`), `none` when
the record is new (`is_new`) or has no stored version; the check runs
only when the status actually changed and compares against the
persisted status. -/
def validate_status_flow (old : Option Doc) (d : Doc) : Except Err Unit :=
  match old with
  | none => .ok ()
  | some o =>
    if o.status ≠ d.status then
      if d.status ∈ valid_status_flow o.status then .ok ()
      else .error (.invalidTransition o.status d.status)
    else .ok ()

/-- The `confirmation_statuses` list of `validate_items_for_confirmation`. -/
def confirmation_statuses : List String :=
  ["Confirmed by Driver", "Delivered - Cash Received", "Delivered - Credit"]

/-- `validate_items_for_confirmation` (lines 45–54): a record in a
confirmation status with no items cannot be saved. -/
def validate_items_for_confirmation (d : Doc) : Except Err Unit :=
  if d.status ∈ confirmation_statuses ∧ d.items = [] then
    .error .noItemsToConfirm
  else .ok ()

/-- `validate_payment_type` (lines 56–62): in a delivered status the
payment type is silently coerced to match; it never raises. -/
def validate_payment_type (d : Doc) : Doc :=
  if d.status = "Delivered - Cash Received" ∧ d.payment_type ≠ "Cash" then
    { d with payment_type := "Cash" }
  else if d.status = "Delivered - Credit" ∧ d.payment_type ≠ "Credit" then
    { d with payment_type := "Credit" }
  else d

/-- `generate_short_item_names` (lines 64–71): truncate each item name
to 40 characters with a `"..."` marker, only when a name is set and no
short name exists yet. -/
def generate_short_item_names (d : Doc) : Doc :=
  { d with items := d.items.map (fun it =>
      match it.item_name with
      | some nm =>
        if nm ≠ "" ∧ it.item_name_short = "" then
          { it with item_name_short :=
              if nm.length > 40 then String.mk (nm.data.take 40) ++ "..."
              else String.mk (nm.data.take 40) }
        else it
      | none => it) }

/-- `validate` (lines 14–19): the hooks in source order; the first two
can raise, the last two mutate the record. -/
def validate (old : Option Doc) (d : Doc) : Except Err Doc := do
  let _ ← validate_status_flow old d
  let _ ← validate_items_for_confirmation d
  pure (generate_short_item_names (validate_payment_type d))

/-- Frappe `doc.save()`: run the validation hooks against the
previously persisted version (`old`, `none` for a brand-new record) and
persist the validated record. -/
def save (old : Option Doc) (d : Doc) : Except Err Doc :=
  validate old d

/-- `set_driver_confirmed` (lines 73–77): set the status, stamp
`driver_confirmed_at` with the current instant and save; `persisted` is
the stored version the save validates against, `mem` the in-memory
record being mutated. -/
def set_driver_confirmed (persisted mem : Doc) (t : Nat) : Except Err Doc :=
  save (some persisted)
    { mem with status := "Confirmed by Driver", driver_confirmed_at := some t }

/-- `set_delivered` (lines 79–91): `"Cash"`/`"Credit"` pick the matching
terminal status and payment type, stamp `delivered_at` and save; any
other token raises before anything is touched. -/
def set_delivered (persisted mem : Doc) (payment_type : String) (t : Nat) :
    Except Err Doc :=
  if payment_type = "Cash" then
    save (some persisted)
      { mem with status := "Delivered - Cash Received",
                 payment_type := "Cash", delivered_at := some t }
  else if payment_type = "Credit" then
    save (some persisted)
      { mem with status := "Delivered - Credit",
                 payment_type := "Credit", delivered_at := some t }
  else
    .error (.invalidPaymentType payment_type)

/-- A freshly created delivery note, as `whatsapp_inbound` inserts it. -/
def doc0 : Doc :=
  { status := "Image Received", payment_type := "", items := [],
    driver_confirmed_at := none, delivered_at := none, header := {} }

/-- A sample line item. -/
def item0 : Item :=
  { sr_no := 1, item_id := some "A", flexi_code := some "",
    item_name := some "Gadget", item_name_short := "", unit := some "",
    qty := 1, cartons := 0 }

/-- A well-typed Azure table cell. -/
def mkCell (ri ci : Int) (content : String) : Json :=
  .obj [("rowIndex", .i ri), ("columnIndex", .i ci), ("content", .s content)]

/-- An analysis result whose only key/value pair has a key that is a
(truthy) plain string instead of an object: `kv["key"].get("content")`
then raises `AttributeError` in Python. -/
def badKvInput : List (String × Json) :=
  [("status", .s "succeeded"),
   ("analyzeResult", .obj [("keyValuePairs", .arr
     [ .obj [("key", .s "delivery note no"),
             ("value", .obj [("content", .s "DN-1")])] ])])]

/-- An analysis result whose only table cell carries a non-string
`content` (the integer 5): `cell.get("content", "").strip()` then
raises `AttributeError` in Python. -/
def badCellInput : List (String × Json) :=
  [("analyzeResult", .obj [("tables", .arr [ .obj
    [("rowCount", .i 2), ("columnCount", .i 2),
     ("cells", .arr [ .obj [("rowIndex", .i 0), ("columnIndex", .i 0),
                            ("content", .i 5)] ])] ])])]

/-- A 2 × 4 items table whose header row classifies only column 2 (as
the item-name column) and whose single data row has content in every
column. -/
def tbl0 : Json := .obj [
  ("rowCount", .i 2), ("columnCount", .i 4),
  ("cells", .arr [
    mkCell 0 0 "x", mkCell 0 1 "y", mkCell 0 2 "Item Name", mkCell 0 3 "z",
    mkCell 1 0 "1", mkCell 1 1 "ABC", mkCell 1 2 "Widget", mkCell 1 3 "5"])]

/-- The pairs dict lookup that `header_step` performs, returning the
value only when it is truthy (so assignment can actually happen). -/
def lookupHeaderValue (pairs : List (String × Json)) (k : String) :
    Option Json :=
  match List.lookup (pyLower k) pairs with
  | some v => if v.truthy then some v else none
  | none => none

/-- The value the ordered mapping assigns to field `f`: the first entry
of the mapping targeting `f` whose (exact) label lookup yields a truthy
value. -/
def firstMatchValue : List (String × HeaderField) → List (String × Json) →
    HeaderField → Option Json
  | [], _, _ => none
  | kf :: rest, pairs, f =>
    if kf.2 = f then
      match lookupHeaderValue pairs kf.1 with
      | some v => some v
      | none => firstMatchValue rest pairs f
    else firstMatchValue rest pairs f

/-- A record created directly in a terminal state, with an item but no
payment type. -/
def freshDelivered : Doc :=
  { doc0 with status := "Delivered - Cash Received", items := [item0] }

/-- `item0` after `generate_short_item_names`. -/
def item0short : Item := { item0 with item_name_short := "Gadget" }

/-- What persisting `freshDelivered` as a new record produces. -/
def freshDeliveredSaved : Doc :=
  { freshDelivered with payment_type := "Cash", items := [item0short] }

/-- The empty 2 × 2 grid. -/
def gridE : List (List (Option String)) := [[none, none], [none, none]]

/-- A record persisted in "Confirmed by Driver" with one item. -/
def confirmedDoc : Doc :=
  { doc0 with status := "Confirmed by Driver", items := [item0] }

/-- A header whose customer-phone field is already populated. -/
def headerX : Header := { customer_phone := .s "X" }

/-- A pairs dict offering a second, differently-labeled value for the
customer-phone field. -/
def pairsY : List (String × Json) := [("phone", .s "Y")]

/-- A brand-new record created directly in a terminal credit state. -/
def newCredit : Doc :=
  { doc0 with status := "Delivered - Credit", items := [item0] }

theorem Header.get_set (h : Header) (f g : HeaderField) (v : Json) :
    (h.set g v).get f = if f = g then v else h.get f := by
  cases f <;> cases g <;> simp [Header.get, Header.set]

/-- `lookupHeaderValue` only ever returns a truthy value. -/
theorem lookupHeaderValue_truthy {pairs : List (String × Json)} {k : String}
    {v : Json} (h : lookupHeaderValue pairs k = some v) : v.truthy = true := by
  unfold lookupHeaderValue at h
  split at h
  · split at h
    · cases h; assumption
    · cases h
  · cases h

/-- `firstMatchValue` only ever returns a truthy value. -/
theorem firstMatchValue_truthy {L : List (String × HeaderField)}
    {pairs : List (String × Json)} {f : HeaderField} {v : Json}
    (h : firstMatchValue L pairs f = some v) : v.truthy = true := by
  induction L with
  | nil => simp [firstMatchValue] at h
  | cons kf rest ih =>
    rw [firstMatchValue] at h
    split at h
    · split at h
      · rename_i hw
        cases h
        exact lookupHeaderValue_truthy hw
      · exact ih h
    · exact ih h

/-- Characterization of the header-update loop: a field keeps its value
when it is already truthy, and otherwise takes the first truthy value
among the mapping entries targeting it (exact label lookup, mapping
order). -/
theorem headerFold_get (L : List (String × HeaderField))
    (pairs : List (String × Json)) (h : Header) (f : HeaderField) :
    (L.foldl (header_step pairs) h).get f =
      if (h.get f).truthy then h.get f
      else (firstMatchValue L pairs f).getD (h.get f) := by
  induction L generalizing h with
  | nil => simp [firstMatchValue]
  | cons kf rest ih =>
    rw [List.foldl_cons, ih]
    cases hl : List.lookup (pyLower kf.1) pairs with
    | none =>
      by_cases hf : kf.2 = f <;>
        simp [header_step, firstMatchValue, lookupHeaderValue, hl, hf]
    | some v =>
      by_cases hv : v.truthy = true
      · by_cases hcur : (h.get kf.2).truthy = true
        · by_cases hf : kf.2 = f
          · subst hf
            simp [header_step, firstMatchValue, lookupHeaderValue, hl, hv, hcur]
          · simp [header_step, firstMatchValue, lookupHeaderValue, hl, hv,
              hcur, hf]
        · by_cases hf : kf.2 = f
          · subst hf
            simp [header_step, firstMatchValue, lookupHeaderValue, hl, hv,
              hcur, Header.get_set]
          · simp [header_step, firstMatchValue, lookupHeaderValue, hl, hv,
              hcur, hf, Header.get_set, Ne.symm hf]
      · by_cases hf : kf.2 = f <;>
          simp [header_step, firstMatchValue, lookupHeaderValue, hl, hv, hf]

/-- Two headers agreeing on every field are equal. -/
theorem Header.ext_get {a b : Header} (hyp : ∀ f, a.get f = b.get f) :
    a = b := by
  cases a
  cases b
  have h1 := hyp .delivery_note_no
  have h2 := hyp .delivery_date
  have h3 := hyp .sales_order_no
  have h4 := hyp .sales_responsible
  have h5 := hyp .delivery_mode
  have h6 := hyp .customer_code
  have h7 := hyp .customer_name
  have h8 := hyp .customer_phone
  have h9 := hyp .customer_reference
  have h10 := hyp .delivery_address
  simp only [Header.get] at h1 h2 h3 h4 h5 h6 h7 h8 h9 h10
  subst h1 h2 h3 h4 h5 h6 h7 h8 h9 h10
  rfl

/-- C1 (counterexample): a raw analysis result with a successful
upstream status whose only key/value pair has a plain-string key — a
shape fault, not an upstream failure — makes `parse_azure_response`
raise the wrapped "Failed to parse Azure response" error instead of
completing, refuting "extraction never raises for data-shape reasons
… the parse of the response always completes". -/
theorem c1_parse_raises_on_bad_key :
    parse_azure_response doc0 badKvInput =
      .error (.parseError .attributeError) := rfl

/-- C1 (amended): extraction degrades *missing* table and field data to
defaults (an analysis result with no `analyzeResult` at all parses and
leaves the record unchanged), but it does tolerate only well-shaped
values: a key/value pair whose key is a truthy non-object, or a table
cell whose content is not a string, escapes as a Python
`AttributeError` that `parse_azure_response` re-raises as a wrapped
parse error, so the parse does not complete on such data. -/
theorem c1_parse_degrades_missing_but_raises_on_shape :
    (∀ doc : Doc, parse_azure_response doc [] = .ok doc) ∧
    parse_azure_response doc0 badCellInput =
      .error (.parseError .attributeError) :=
  ⟨fun _ => rfl, rfl⟩

/-- C2 (counterexample): in `tbl0` only column 2 is classified (as the
item-name column); the data row carries "ABC" in column 1 and "5" in
column 3, yet the parsed item has `item_id = ""` and `qty = 0.0` —
there is no positional fallback to column 1 for `itemId` nor to
column 3 for `qty`, refuting the claimed fallbacks (the
`col_map.get("item_id", 1)`-style defaults are dead code behind the
`in col_map` guards). -/
theorem c2_no_positional_fallback :
    (parse_items_table doc0 tbl0).map Doc.items =
      .ok [{ sr_no := 1, item_id := some "", flexi_code := some "",
             item_name := some "Widget", item_name_short := "",
             unit := some "", qty := 0, cartons := 0 }] ∧
    (some "" : Option String) ≠ some "ABC" ∧ (0 : Rat) ≠ 5 := by
  refine ⟨rfl, by decide, by decide⟩

/-- C2 (amended): when a semantic column was not classified from the
header row, only `srNo` has a positional fallback — the row index;
`itemId`, `itemName`, `flexiCode` and `unit` stay the empty string and
`qty` and `cartons` stay zero. -/
theorem c2_unclassified_defaults (row : List (Option String))
    (row_idx : Nat) (cm : ColMap) :
    (cm.sr_no = none → (build_item row row_idx cm).sr_no = row_idx) ∧
    (cm.item_id = none → (build_item row row_idx cm).item_id = some "") ∧
    (cm.item_name = none → (build_item row row_idx cm).item_name = some "") ∧
    (cm.flexi_code = none → (build_item row row_idx cm).flexi_code = some "") ∧
    (cm.unit = none → (build_item row row_idx cm).unit = some "") ∧
    (cm.qty = none → (build_item row row_idx cm).qty = 0) ∧
    (cm.cartons = none → (build_item row row_idx cm).cartons = 0) := by
  refine ⟨fun hn => ?_, fun hn => ?_, fun hn => ?_, fun hn => ?_,
    fun hn => ?_, fun hn => ?_, fun hn => ?_⟩ <;> simp [build_item, hn]

/-- C2 (witness): the amended claim at the fully unclassified column
map. -/
theorem c2_unclassified_defaults_witness :
    (build_item [some "1", some "ABC"] 3 {}).sr_no = 3 ∧
    (build_item [some "1", some "ABC"] 3 {}).item_id = some "" ∧
    (build_item [some "1", some "ABC"] 3 {}).item_name = some "" ∧
    (build_item [some "1", some "ABC"] 3 {}).flexi_code = some "" ∧
    (build_item [some "1", some "ABC"] 3 {}).unit = some "" ∧
    (build_item [some "1", some "ABC"] 3 {}).qty = 0 ∧
    (build_item [some "1", some "ABC"] 3 {}).cartons = 0 := by
  have h := c2_unclassified_defaults [some "1", some "ABC"] 3 {}
  exact ⟨h.1 rfl, h.2.1 rfl, h.2.2.1 rfl, h.2.2.2.1 rfl, h.2.2.2.2.1 rfl,
    h.2.2.2.2.2.1 rfl, h.2.2.2.2.2.2 rfl⟩

/-- C3 (counterexample): the label "customer phone" contains the
vocabulary substring "phone", yet the field update leaves
`customer_phone` unset — labels are matched by exact equality against
the vocabulary, not by substring containment. -/
theorem c3_substring_label_not_matched :
    strContains "customer phone" "phone" = true ∧
    (update_header_fields {} [("customer phone", .s "123")]).customer_phone =
      .null := ⟨rfl, rfl⟩

/-- C3 (amended): label-to-field assignment uses *exact* matching of
the normalized label against the fixed lowercase vocabulary, evaluated
as an ordered table: a field that is not already truthy receives the
value of the first vocabulary entry targeting it whose key is present
(exactly) in the pairs with a truthy value, and keeps its old value
otherwise; merely containing a vocabulary substring has no effect. -/
theorem c3_exact_match_first_wins (h : Header)
    (pairs : List (String × Json)) (f : HeaderField) :
    (update_header_fields h pairs).get f =
      if (h.get f).truthy then h.get f
      else (firstMatchValue field_mapping pairs f).getD (h.get f) :=
  headerFold_get field_mapping pairs h f

/-- `save` laid out as a case split over the two raising validators. -/
theorem save_eq (old : Option Doc) (d : Doc) :
    save old d =
      match validate_status_flow old d with
      | .error e => .error e
      | .ok _ =>
        match validate_items_for_confirmation d with
        | .error e => .error e
        | .ok _ =>
          .ok (generate_short_item_names (validate_payment_type d)) := by
  unfold save validate
  cases validate_status_flow old d <;>
    cases validate_items_for_confirmation d <;> rfl

/-- `generate_short_item_names` only touches the items. -/
theorem gsin_status (d : Doc) :
    (generate_short_item_names d).status = d.status := rfl

/-- `generate_short_item_names` does not touch the payment type. -/
theorem gsin_payment (d : Doc) :
    (generate_short_item_names d).payment_type = d.payment_type := rfl

/-- `validate_payment_type` keeps the status and coerces the payment
type to match a delivered status. -/
theorem vpt_spec (d : Doc) :
    (validate_payment_type d).status = d.status ∧
    (d.status = "Delivered - Cash Received" →
      (validate_payment_type d).payment_type = "Cash") ∧
    (d.status = "Delivered - Credit" →
      (validate_payment_type d).payment_type = "Credit") := by
  unfold validate_payment_type
  by_cases h1 : d.status = "Delivered - Cash Received" ∧ d.payment_type ≠ "Cash"
  · rw [if_pos h1]
    refine ⟨rfl, fun _ => rfl, fun hc => ?_⟩
    rw [h1.1] at hc
    exact absurd hc (by decide)
  · rw [if_neg h1]
    by_cases h2 : d.status = "Delivered - Credit" ∧ d.payment_type ≠ "Credit"
    · rw [if_pos h2]
      refine ⟨rfl, fun hc => ?_, fun _ => rfl⟩
      rw [h2.1] at hc
      exact absurd hc (by decide)
    · rw [if_neg h2]
      refine ⟨rfl, fun hc => ?_, fun hc => ?_⟩
      · by_cases hp : d.payment_type = "Cash"
        · exact hp
        · exact absurd ⟨hc, hp⟩ h1
      · by_cases hp : d.payment_type = "Credit"
        · exact hp
        · exact absurd ⟨hc, hp⟩ h2

/-- `validate_status_flow` on an actual status change reduces to the
edge test. -/
theorem vsf_change (p d : Doc) (hne : p.status ≠ d.status) :
    validate_status_flow (some p) d =
      if d.status ∈ valid_status_flow p.status then .ok ()
      else .error (.invalidTransition p.status d.status) := by
  show (if p.status ≠ d.status then
          if d.status ∈ valid_status_flow p.status then Except.ok ()
          else Except.error (Err.invalidTransition p.status d.status)
        else Except.ok ()) = _
  rw [if_pos hne]

/-- C4: a status change on an existing record — validated against the
previously persisted status, which `save` receives as `old` — fails
with `InvalidTransition` naming the from/to pair exactly when the pair
is not an edge of the fixed transition graph `valid_status_flow`. -/
theorem c4_transition_guard (p d : Doc) (hne : p.status ≠ d.status) :
    (save (some p) d = .error (.invalidTransition p.status d.status)) ↔
      d.status ∉ valid_status_flow p.status := by
  rw [save_eq]
  show ((match validate_status_flow (some p) d with
        | .error e => (.error e : Except Err Doc)
        | .ok _ =>
          match validate_items_for_confirmation d with
          | .error e => .error e
          | .ok _ =>
            .ok (generate_short_item_names (validate_payment_type d))) =
      .error (.invalidTransition p.status d.status)) ↔
      d.status ∉ valid_status_flow p.status
  rw [vsf_change p d hne]
  by_cases hmem : d.status ∈ valid_status_flow p.status
  · rw [if_pos hmem]
    cases hit : validate_items_for_confirmation d with
    | ok u => simp [hmem]
    | error e =>
      have he : e = Err.noItemsToConfirm := by
        unfold validate_items_for_confirmation at hit
        split at hit
        · cases hit; rfl
        · cases hit
      subst he
      simp [hmem]
  · rw [if_neg hmem]
    simp [hmem]

/-- C4 (witness): `ImageReceived → ConfirmedByDriver` is not an edge and
is rejected. -/
theorem c4_transition_guard_witness :
    doc0.status ≠ "Confirmed by Driver" ∧
    save (some doc0) { doc0 with status := "Confirmed by Driver" } =
      .error (.invalidTransition "Image Received" "Confirmed by Driver") :=
  ⟨by decide,
   (c4_transition_guard doc0 { doc0 with status := "Confirmed by Driver" }
     (by decide)).mpr (by decide)⟩

/-- C5 (counterexample): `set_driver_confirmed` on a record persisted in
"Image Received" with zero items fails with `InvalidTransition`, not
`NoItemsToConfirm` — the status-flow check runs first, so the claimed
"fails with NoItemsToConfirm regardless of transition legality" is
false when the transition is illegal. -/
theorem c5_invalid_transition_preempts :
    set_driver_confirmed doc0 doc0 0 =
      .error (.invalidTransition "Image Received" "Confirmed by Driver") ∧
    Err.invalidTransition "Image Received" "Confirmed by Driver" ≠
      Err.noItemsToConfirm := ⟨rfl, by decide⟩

/-- C5 (amended): persisting a record in a confirmation status with an
empty item list always fails, and the error is `NoItemsToConfirm`
exactly when the status-flow check passes (new record, unchanged
status, or legal transition); in particular `set_driver_confirmed`
from "Awaiting Driver Confirmation" with zero items fails with
`NoItemsToConfirm`. When the transition is also illegal,
`InvalidTransition` is raised instead. -/
theorem c5_empty_items_blocked (old : Option Doc) (d p mem : Doc) (t : Nat) :
    (d.status ∈ confirmation_statuses → d.items = [] →
      ((∃ e, save old d = .error e) ∧
       (validate_status_flow old d = .ok () →
         save old d = .error .noItemsToConfirm))) ∧
    (p.status = "Awaiting Driver Confirmation" → mem.items = [] →
      set_driver_confirmed p mem t = .error .noItemsToConfirm) := by
  constructor
  · intro hs hi
    have hval : validate_items_for_confirmation d = .error .noItemsToConfirm := by
      unfold validate_items_for_confirmation
      rw [if_pos ⟨hs, hi⟩]
    constructor
    · rw [save_eq]
      cases hf : validate_status_flow old d with
      | error e => exact ⟨e, rfl⟩
      | ok u => rw [hval]; exact ⟨.noItemsToConfirm, rfl⟩
    · intro hok
      rw [save_eq, hok, hval]
  · intro hp hi
    unfold set_driver_confirmed
    rw [save_eq]
    have hflow : validate_status_flow (some p)
        { mem with status := "Confirmed by Driver",
                   driver_confirmed_at := some t } = .ok () := by
      show (if p.status ≠ "Confirmed by Driver" then
              if ("Confirmed by Driver" : String) ∈ valid_status_flow p.status
              then Except.ok ()
              else Except.error
                (Err.invalidTransition p.status "Confirmed by Driver")
            else Except.ok ()) = Except.ok ()
      rw [hp]
      rw [if_pos (by decide :
        ("Awaiting Driver Confirmation" : String) ≠ "Confirmed by Driver")]
      rw [if_pos (by decide : ("Confirmed by Driver" : String) ∈
        valid_status_flow "Awaiting Driver Confirmation")]
    rw [hflow]
    have hval : validate_items_for_confirmation
        { mem with status := "Confirmed by Driver",
                   driver_confirmed_at := some t } =
        .error .noItemsToConfirm := by
      show (if ("Confirmed by Driver" : String) ∈ confirmation_statuses ∧
              mem.items = [] then
            (Except.error Err.noItemsToConfirm : Except Err Unit)
          else .ok ()) = .error .noItemsToConfirm
      rw [if_pos ⟨by decide, hi⟩]
    rw [hval]

/-- C5 (witness): a new record in "Confirmed by Driver" with no items,
and `set_driver_confirmed` from "Awaiting Driver Confirmation" with no
items. -/
theorem c5_empty_items_blocked_witness :
    (∃ e, save none { doc0 with status := "Confirmed by Driver" } =
      .error e) ∧
    save none { doc0 with status := "Confirmed by Driver" } =
      .error .noItemsToConfirm ∧
    set_driver_confirmed
      { doc0 with status := "Awaiting Driver Confirmation" }
      { doc0 with status := "Awaiting Driver Confirmation" } 0 =
      .error .noItemsToConfirm := by
  have h := c5_empty_items_blocked none
    { doc0 with status := "Confirmed by Driver" }
    { doc0 with status := "Awaiting Driver Confirmation" }
    { doc0 with status := "Awaiting Driver Confirmation" } 0
  exact ⟨(h.1 (by decide) rfl).1, (h.1 (by decide) rfl).2 rfl, h.2 rfl rfl⟩

/-- C6: `set_delivered` with "Cash" (from a confirmable record) persists
the Cash terminal status, payment type "Cash" and a `delivered_at`
stamp; symmetrically for "Credit"; any other token fails with
`InvalidPaymentType` before any mutation or save, leaving the persisted
record untouched. -/
theorem c6_mark_delivered (p mem : Doc) (t : Nat) (pt : String) :
    (p.status = "Confirmed by Driver" → mem.items ≠ [] →
      (set_delivered p mem "Cash" t).map
        (fun d => (d.status, d.payment_type, d.delivered_at)) =
        .ok ("Delivered - Cash Received", "Cash", some t)) ∧
    (p.status = "Confirmed by Driver" → mem.items ≠ [] →
      (set_delivered p mem "Credit" t).map
        (fun d => (d.status, d.payment_type, d.delivered_at)) =
        .ok ("Delivered - Credit", "Credit", some t)) ∧
    (pt ≠ "Cash" → pt ≠ "Credit" →
      set_delivered p mem pt t = .error (.invalidPaymentType pt)) := by
  refine ⟨fun hp hitems => ?_, fun hp hitems => ?_, fun h1 h2 => ?_⟩
  · show (save (some p)
        { mem with
            status := "Delivered - Cash Received"
            payment_type := "Cash"
            delivered_at := some t }).map
        (fun d => (d.status, d.payment_type, d.delivered_at)) = _
    rw [save_eq]
    have hflow : validate_status_flow (some p)
        { mem with
            status := "Delivered - Cash Received"
            payment_type := "Cash"
            delivered_at := some t } = .ok () := by
      show (if p.status ≠ "Delivered - Cash Received" then
              if ("Delivered - Cash Received" : String) ∈
                  valid_status_flow p.status then Except.ok ()
              else Except.error (Err.invalidTransition p.status
                "Delivered - Cash Received")
            else Except.ok ()) = Except.ok ()
      rw [hp]
      rw [if_pos (by decide : ("Confirmed by Driver" : String) ≠
        "Delivered - Cash Received")]
      rw [if_pos (by decide : ("Delivered - Cash Received" : String) ∈
        valid_status_flow "Confirmed by Driver")]
    rw [hflow]
    have hval : validate_items_for_confirmation
        { mem with
            status := "Delivered - Cash Received"
            payment_type := "Cash"
            delivered_at := some t } = .ok () := by
      show (if ("Delivered - Cash Received" : String) ∈
              confirmation_statuses ∧ mem.items = [] then
            (Except.error Err.noItemsToConfirm : Except Err Unit)
          else .ok ()) = .ok ()
      rw [if_neg (fun hc => hitems hc.2)]
    rw [hval]
    rfl
  · show (save (some p)
        { mem with
            status := "Delivered - Credit"
            payment_type := "Credit"
            delivered_at := some t }).map
        (fun d => (d.status, d.payment_type, d.delivered_at)) = _
    rw [save_eq]
    have hflow : validate_status_flow (some p)
        { mem with
            status := "Delivered - Credit"
            payment_type := "Credit"
            delivered_at := some t } = .ok () := by
      show (if p.status ≠ "Delivered - Credit" then
              if ("Delivered - Credit" : String) ∈
                  valid_status_flow p.status then Except.ok ()
              else Except.error (Err.invalidTransition p.status
                "Delivered - Credit")
            else Except.ok ()) = Except.ok ()
      rw [hp]
      rw [if_pos (by decide : ("Confirmed by Driver" : String) ≠
        "Delivered - Credit")]
      rw [if_pos (by decide : ("Delivered - Credit" : String) ∈
        valid_status_flow "Confirmed by Driver")]
    rw [hflow]
    have hval : validate_items_for_confirmation
        { mem with
            status := "Delivered - Credit"
            payment_type := "Credit"
            delivered_at := some t } = .ok () := by
      show (if ("Delivered - Credit" : String) ∈
              confirmation_statuses ∧ mem.items = [] then
            (Except.error Err.noItemsToConfirm : Except Err Unit)
          else .ok ()) = .ok ()
      rw [if_neg (fun hc => hitems hc.2)]
    rw [hval]
    rfl
  · unfold set_delivered
    rw [if_neg h1, if_neg h2]

/-- C6 (witness): the three branches at a confirmable record. -/
theorem c6_mark_delivered_witness :
    confirmedDoc.status = "Confirmed by Driver" ∧
    confirmedDoc.items ≠ [] ∧
    (set_delivered confirmedDoc confirmedDoc "Cash" 9).map
      (fun d => (d.status, d.payment_type, d.delivered_at)) =
      .ok ("Delivered - Cash Received", "Cash", some 9) ∧
    (set_delivered confirmedDoc confirmedDoc "Credit" 9).map
      (fun d => (d.status, d.payment_type, d.delivered_at)) =
      .ok ("Delivered - Credit", "Credit", some 9) ∧
    set_delivered confirmedDoc confirmedDoc "Bogus" 9 =
      .error (.invalidPaymentType "Bogus") := by
  have h := c6_mark_delivered confirmedDoc confirmedDoc 9 "Bogus"
  exact ⟨rfl, by decide, h.1 rfl (by decide), h.2.1 rfl (by decide),
    h.2.2 (by decide) (by decide)⟩

/-- C7: a header field that is already populated (truthy) is never
overwritten by the header-update pass, and running the pass a second
time over the same pairs changes nothing — first-write-wins within and
across extraction passes. -/
theorem c7_first_write_wins (h : Header) (pairs : List (String × Json))
    (f : HeaderField) :
    ((h.get f).truthy = true →
      (update_header_fields h pairs).get f = h.get f) ∧
    update_header_fields (update_header_fields h pairs) pairs =
      update_header_fields h pairs := by
  constructor
  · intro ht
    rw [update_header_fields, headerFold_get, if_pos ht]
  · apply Header.ext_get
    intro g
    show (field_mapping.foldl (header_step pairs)
        (field_mapping.foldl (header_step pairs) h)).get g =
      (field_mapping.foldl (header_step pairs) h).get g
    rw [headerFold_get]
    by_cases ht :
        ((field_mapping.foldl (header_step pairs) h).get g).truthy = true
    · rw [if_pos ht]
    · rw [if_neg ht]
      cases hfm : firstMatchValue field_mapping pairs g with
      | none => rfl
      | some v =>
        have h2 := headerFold_get field_mapping pairs h g
        by_cases hh : ((h.get g)).truthy = true
        · rw [if_pos hh] at h2
          exact absurd (h2 ▸ hh) ht
        · rw [if_neg hh, hfm] at h2
          simp [h2]

/-- C7 (witness): a populated customer-phone field survives a pass that
offers a different value for it, and the pass is idempotent. -/
theorem c7_first_write_wins_witness :
    (headerX.get .customer_phone).truthy = true ∧
    (update_header_fields headerX pairsY).get .customer_phone =
      headerX.get .customer_phone ∧
    update_header_fields (update_header_fields headerX pairsY) pairsY =
      update_header_fields headerX pairsY := by
  have h := c7_first_write_wins headerX pairsY .customer_phone
  exact ⟨rfl, h.1 rfl, h.2⟩

/-- C8 (counterexample): a cell with `rowIndex = -1` is *not* discarded:
Python list indexing wraps it around to the last row, so its content
lands at grid position (1, 0) of a 2 × 2 grid, refuting "every cell
whose indices fall outside the declared bounds (including indices below
zero) is discarded and contributes nothing to any grid position". -/
theorem c8_negative_index_not_discarded :
    build_grid 2 2 [mkCell (-1) 0 "X"] =
      .ok [[none, none], [some "X", none]] ∧
    ([[none, none], [some "X", none]] : List (List (Option String))) ≠
      [[none, none], [none, none]] := ⟨rfl, by decide⟩

/-- C8 (amended): a cell whose row or column index is at least the
declared count is discarded and contributes nothing; but an index below
zero is not discarded: an index in `[-count, -1]` wraps around Python
style (rowIndex −1 stores into the last row), and an index below
`-count` raises `IndexError`, aborting the parse. -/
theorem c8_bounds (rc cc ri ci : Int)
    (grid : List (List (Option String))) (s : String) :
    ((rc ≤ ri ∨ cc ≤ ci) →
      place_cell rc cc grid (mkCell ri ci s) = .ok grid) ∧
    build_grid 2 2 [mkCell (-1) 0 "X"] =
      .ok [[none, none], [some "X", none]] ∧
    build_grid 2 2 [mkCell (-3) 0 "X"] = .error .indexError := by
  refine ⟨fun hb => ?_, rfl, rfl⟩
  have hcond : ¬(ri < rc ∧ ci < cc) := by
    rcases hb with hb | hb
    · exact fun hc => absurd hc.1 (not_lt.mpr hb)
    · exact fun hc => absurd hc.2 (not_lt.mpr hb)
  show (if ri < rc ∧ ci < cc then
          (do
            let p ← pyResolve ri grid.length
            let row := grid.getD p []
            let q ← pyResolve ci row.length
            pure (grid.set p (row.set q (some (pyStrip s)))) :
            Except PyErr _)
        else pure grid) = .ok grid
  rw [if_neg hcond]
  rfl

/-- C8 (witness): an in-bounds-typed cell with row index 5, column 0 in
a 2 × 2 grid is discarded. -/
theorem c8_bounds_witness :
    ((2 : Int) ≤ 5 ∨ (2 : Int) ≤ 0) ∧
    place_cell 2 2 gridE (mkCell 5 0 "X") = .ok gridE :=
  ⟨Or.inl (by decide),
   (c8_bounds 2 2 5 0 gridE "X").1 (Or.inl (by decide))⟩

/-- C9 (counterexample): inserting a brand-new record directly in the
Cash terminal state with an empty payment type succeeds and the
validation hook itself assigns `paymentType = "Cash"` — so an operation
other than a terminal transition (plain creation) assigns
`paymentType`, refuting "no operation other than a terminal transition
assigns paymentType". -/
theorem c9_creation_assigns_payment :
    (save none freshDelivered).map Doc.payment_type = .ok "Cash" ∧
    freshDelivered.payment_type = "" := ⟨rfl, rfl⟩

/-- C9 (amended): every successfully persisted record in a delivered
status has the matching payment type — `validate_payment_type` coerces
it on every save — but the assignment is performed by any persistence
in a delivered state, not only by terminal transitions. -/
theorem c9_payment_matches_terminal (old : Option Doc) (d d1 : Doc)
    (hok : save old d = .ok d1) :
    (d1.status = "Delivered - Cash Received" → d1.payment_type = "Cash") ∧
    (d1.status = "Delivered - Credit" → d1.payment_type = "Credit") := by
  rw [save_eq] at hok
  cases hf : validate_status_flow old d with
  | error e => rw [hf] at hok; cases hok
  | ok u =>
    rw [hf] at hok
    cases hi : validate_items_for_confirmation d with
    | error e => rw [hi] at hok; cases hok
    | ok u2 =>
      rw [hi] at hok
      have hd : d1 = generate_short_item_names (validate_payment_type d) := by
        cases hok; rfl
      subst hd
      have hs := vpt_spec d
      refine ⟨fun hc => ?_, fun hc => ?_⟩
      · rw [gsin_status] at hc
        rw [gsin_payment]
        exact hs.2.1 (hs.1.symm.trans hc)
      · rw [gsin_status] at hc
        rw [gsin_payment]
        exact hs.2.2 (hs.1.symm.trans hc)

/-- C9 (witness): the amended claim at a concrete persisted record. -/
theorem c9_payment_matches_terminal_witness :
    save none freshDelivered = .ok freshDeliveredSaved ∧
    freshDeliveredSaved.payment_type = "Cash" :=
  ⟨rfl,
   (c9_payment_matches_terminal none freshDelivered freshDeliveredSaved
     rfl).1 rfl⟩

/-- C10: for a newly created record the status-flow hook returns before
the transition check, so creation never raises `InvalidTransition`, and
the record can be persisted directly in any status — terminal ones
included — provided the item-list check passes (the payment-type hook
never raises, it only coerces). -/
theorem c10_new_record_any_status (d : Doc) :
    validate_status_flow none d = .ok () ∧
    (¬(d.status ∈ confirmation_statuses ∧ d.items = []) →
      ∃ d1, save none d = .ok d1 ∧ d1.status = d.status) := by
  refine ⟨rfl, fun hno => ?_⟩
  refine ⟨generate_short_item_names (validate_payment_type d), ?_, ?_⟩
  · rw [save_eq]
    have hi : validate_items_for_confirmation d = .ok () := by
      unfold validate_items_for_confirmation
      rw [if_neg hno]
    rw [hi]
    rfl
  · rw [gsin_status]
    exact (vpt_spec d).1

/-- C10 (witness): a new record created directly in the terminal
"Delivered - Credit" state with one item persists without any
`InvalidTransition`. -/
theorem c10_new_record_any_status_witness :
    validate_status_flow none newCredit = .ok () ∧
    ¬(newCredit.status ∈ confirmation_statuses ∧ newCredit.items = []) ∧
    ∃ d1, save none newCredit = .ok d1 ∧ d1.status = "Delivered - Credit" := by
  have h := c10_new_record_any_status newCredit
  exact ⟨h.1, by decide, h.2 (by decide)⟩
